import Mathlib

/-!
Verification development for the connection-forwarding engine of a pluggable
transport proxy (file src/network.c of the repository).

The C code is event driven (libevent).  We embed it shallowly:

* a bufferevent becomes a `BEV` record holding its two evbuffers (modelled as
  byte lists), its enabled flags and its three installed callbacks;
* a `conn_t` becomes a `Conn` record; the input bufferevent always exists
  after construction while the output one is optional (socks mode creates it
  lazily), mirroring the nullable `conn->output` pointer;
* external collaborators (the protocol object, the SOCKS parser, the socket
  layer) are abstracted into an `Oracle` of pure functions, one field per C
  entry point the engine calls;
* each callback of network.c becomes a Lean function from the connection
  state to `Option Res`, where `Res.closed` models `close_conn`,
  `Res.abort` models `obfs_abort` / a failed `obfs_assert`, and `none`
  models undefined behaviour (a dereference of an absent object or an
  unmodelled continuation);
* the process-wide registry and shutdown logic become a small transition
  system `NetState` with operations `start_shutdown` and `close_conn_reg`.
-/

namespace StegoNet

/-- Which of the two bufferevents of a connection is meant: the accepted
(upstream) socket or the outbound (downstream) socket. -/
inductive Side
  | inp
  | out
deriving DecidableEq, Repr

/-- Read callbacks that network.c ever installs on a bufferevent. -/
inductive ReadCb
  | none
  | upstreamRead
  | downstreamRead
  | socksRead
deriving DecidableEq, Repr

/-- Write-complete callbacks that network.c ever installs. -/
inductive WriteCb
  | none
  | closeConnOnFlush
deriving DecidableEq, Repr

/-- Event callbacks that network.c ever installs. -/
inductive EventCb
  | none
  | inputEvent
  | outputEvent
  | socksEvent
deriving DecidableEq, Repr

/-- Model of a libevent bufferevent: its input (read) and output (write)
evbuffers, its enabled flags, and its three installed callbacks. -/
structure BEV where
  readBuf : List Nat
  writeBuf : List Nat
  readEnabled : Bool
  writeEnabled : Bool
  readCb : ReadCb
  writeCb : WriteCb
  eventCb : EventCb
deriving DecidableEq, Repr

/-- A freshly created bufferevent (bufferevent_socket_new): empty buffers,
nothing enabled, no callbacks installed yet. -/
def freshBEV : BEV :=
  { readBuf := [], writeBuf := [], readEnabled := false, writeEnabled := false,
    readCb := ReadCb.none, writeCb := WriteCb.none, eventCb := EventCb.none }

/-- Listener modes of network.h. -/
inductive Mode
  | simpleClient
  | simpleServer
  | socksClient
deriving DecidableEq, Repr

/-- Status values of the SOCKS parser state that network.c inspects. -/
inductive SocksStatus
  | stInit
  | stHaveAddr
  | stSentReply
deriving DecidableEq, Repr

/-- The SOCKS parser state owned by a negotiating connection; network.c only
ever looks at its status (the rest is owned by the socks module). -/
structure SocksState where
  status : SocksStatus
deriving DecidableEq, Repr

/-- Model of conn_t.  The input bufferevent is created in every acceptance
flow before the connection is registered, so it is a plain field; the output
bufferevent is a nullable pointer in C (socks mode creates it lazily). -/
structure Conn where
  mode : Mode
  input : BEV
  output : Option BEV
  socksState : Option SocksState
  isOpen : Bool
  flushing : Bool
deriving DecidableEq, Repr

/-- Dereference the bufferevent pointer of one side of a connection. -/
def Conn.getBev (c : Conn) : Side → Option BEV
  | Side.inp => some c.input
  | Side.out => c.output

/-- Store a bufferevent into one side of a connection. -/
def Conn.setBev (c : Conn) : Side → BEV → Conn
  | Side.inp, b => { c with input := b }
  | Side.out, b => { c with output := some b }

/-- Apply an update to the bufferevent of one side; `none` when that side is
a null pointer (undefined behaviour in the C code). -/
def Conn.modifyBev (c : Conn) (s : Side) (f : BEV → BEV) : Option Conn :=
  (c.getBev s).map (fun b => c.setBev s (f b))

/-- Update the always-present input bufferevent. -/
def Conn.updInput (c : Conn) (f : BEV → BEV) : Conn :=
  { c with input := f c.input }

/-- The `what` bitfield delivered to an event callback. -/
structure EvWhat where
  connected : Bool
  eof : Bool
  error : Bool
  timeout : Bool
deriving DecidableEq, Repr

/-- Outcome of running one callback on a connection: the connection survives
in a new state, or `close_conn` ran, or the process aborted on a failed
assertion. -/
inductive Res
  | cont (c : Conn)
  | closed
  | abort
deriving DecidableEq, Repr

/-- Return codes of proto_recv. -/
inductive RecvRet
  | recvGood
  | recvBad
  | recvSendPending
deriving DecidableEq, Repr

/-- Return codes of handle_socks. -/
inductive SocksRet
  | good
  | incomplete
  | broken
  | cmdNotConnect
deriving DecidableEq, Repr

/-- The SOCKS5 reply code SOCKS5_FAILED_UNSUPPORTED (command not supported). -/
def socks5FailedUnsupported : Nat := 7

/-- External collaborators of network.c, abstracted as pure functions.  Buffer
arguments and results are the byte lists before and after the call; the
protocol object itself is not tracked (the engine treats it as opaque). -/
structure Oracle where
  protoCreateOk : Bool
  inputNewOk : Bool
  outputNewOk : Bool
  handshakeRet : Int
  handshakeBytes : List Nat
  connectRet : Int
  protoSend : List Nat → List Nat → Int × List Nat × List Nat
  protoRecv : List Nat → List Nat → RecvRet × List Nat × List Nat
  handleSocks : SocksState → List Nat → List Nat →
    SocksRet × SocksState × List Nat × List Nat
  socksReply : SocksState → Nat → List Nat
  socks5Reply : SocksState → Nat → List Nat
  sockErr : Nat
  getpeernameOk : Bool
  peerAddr : Nat
  setAddr : SocksState → Nat → SocksState

/-- Model of error_or_eof (network.c lines 554-575).  Short-circuit order of
the C condition is preserved: when flushing is set or the connection is not
open, the flush-side buffer is never dereferenced. -/
def error_or_eof (c : Conn) (bevErr bevFlush : Side) : Option Res :=
  if c.flushing then some Res.closed
  else if !c.isOpen then some Res.closed
  else
    match c.getBev bevFlush with
    | none => none
    | some bf =>
      if bf.writeBuf.length = 0 then some Res.closed
      else
        let c1 : Conn := { c with flushing := true }
        match c1.modifyBev bevErr
            (fun b => { b with readEnabled := false, writeEnabled := false }) with
        | none => none
        | some c2 =>
          match c2.modifyBev bevFlush (fun b => { b with readEnabled := false }) with
          | none => none
          | some c3 =>
            match c3.modifyBev bevFlush
                (fun b => { b with readCb := ReadCb.none,
                                   writeCb := WriteCb.closeConnOnFlush,
                                   eventCb := EventCb.outputEvent }) with
            | none => none
            | some c4 =>
              match c4.modifyBev bevFlush (fun b => { b with writeEnabled := true }) with
              | none => none
              | some c5 => some (Res.cont c5)

/-- Model of close_conn_on_flush (lines 425-432): close the connection when
the output evbuffer of the given bufferevent is empty, otherwise do nothing. -/
def close_conn_on_flush (bev : Side) (c : Conn) : Option Res :=
  match c.getBev bev with
  | none => none
  | some b => if b.writeBuf.length = 0 then some Res.closed else some (Res.cont c)

/-- Model of upstream_read_cb (lines 510-522): pipe the read buffer of the
side that fired through proto_send into the write buffer of the peer side;
a negative return closes the connection. -/
def upstream_read (O : Oracle) (bev : Side) (c : Conn) : Option Res :=
  let other : Side := if bev = Side.inp then Side.out else Side.inp
  match c.getBev bev, c.getBev other with
  | some bSelf, some bOther =>
    let r := O.protoSend bSelf.readBuf bOther.writeBuf
    let c1 := (c.setBev bev { bSelf with readBuf := r.2.1 }).setBev other
      { bOther with writeBuf := r.2.2 }
    if r.1 < 0 then some Res.closed else some (Res.cont c1)
  | _, _ => none

/-- Model of downstream_read_cb (lines 529-548): pipe the read buffer of the
side that fired through proto_recv into the write buffer of the peer side.
RECV_BAD closes the connection; RECV_SEND_PENDING triggers a follow-up
proto_send from the input read buffer to the output write buffer whose
return value the C code discards. -/
def downstream_read (O : Oracle) (bev : Side) (c : Conn) : Option Res :=
  let other : Side := if bev = Side.inp then Side.out else Side.inp
  match c.getBev bev, c.getBev other with
  | some bSelf, some bOther =>
    let r := O.protoRecv bSelf.readBuf bOther.writeBuf
    let c1 := (c.setBev bev { bSelf with readBuf := r.2.1 }).setBev other
      { bOther with writeBuf := r.2.2 }
    match r.1 with
    | RecvRet.recvBad => some Res.closed
    | RecvRet.recvGood => some (Res.cont c1)
    | RecvRet.recvSendPending =>
      match c1.getBev Side.inp, c1.getBev Side.out with
      | some bi, some bo =>
        let s := O.protoSend bi.readBuf bo.writeBuf
        some (Res.cont ((c1.setBev Side.inp { bi with readBuf := s.2.1 }).setBev
          Side.out { bo with writeBuf := s.2.2 }))
      | _, _ => none
  | _, _ => none

/-- The cookie passed as the void* argument of a raw callback invocation.
Normal libevent dispatch passes the conn_t pointer; line 684 of the source
passes a bufferevent pointer instead. -/
inductive CbArg
  | connArg
  | bevArg (s : Side)
deriving DecidableEq, Repr

/-- Raw entry point of downstream_read_cb: the C function casts its void*
cookie to conn_t*.  When the cookie is actually a bufferevent pointer the
fields read from it are garbage, which is undefined behaviour, modelled as
`none`. -/
def downstream_read_raw (O : Oracle) (bev : Side) (arg : CbArg) (c : Conn) :
    Option Res :=
  match arg with
  | CbArg.connArg => downstream_read O bev c
  | CbArg.bevArg _ => none

/-- Model of input_event_cb (lines 581-594): assert the event fired on the
input side, assert it is an error class and not CONNECTED, then hand off to
error_or_eof with the input as errored side and the output as flush side. -/
def input_event (bev : Side) (what : EvWhat) (c : Conn) : Option Res :=
  if bev ≠ Side.inp then some Res.abort
  else if !(what.eof || what.error || what.timeout) then some Res.abort
  else if what.connected then some Res.abort
  else error_or_eof c bev Side.out

/-- Model of output_event_cb (lines 602-629): assert the event fired on the
output side; on flushing or an error class hand off to error_or_eof with the
input as flush side; on CONNECTED mark the connection open and enable the
input side; anything else aborts. -/
def output_event (bev : Side) (what : EvWhat) (c : Conn) : Option Res :=
  if bev ≠ Side.out then some Res.abort
  else if c.flushing || what.eof || what.error || what.timeout then
    error_or_eof c bev Side.inp
  else if what.connected then
    some (Res.cont ({ c with isOpen := true }.updInput
      (fun b => { b with readEnabled := true, writeEnabled := true })))
  else some Res.abort

/-- The CONNECTED block of socks_event_cb (lines 663-685) followed by the
unconditional tail call to output_event_cb (line 688).  On CONNECTED: learn
the peer address when getpeername succeeds, emit the positive SOCKS reply
into the input write buffer, free the socks state, rewire both sides to the
steady-state callbacks, and if the input read buffer is non-empty invoke
downstream_read_cb passing conn->input as its void* cookie (the cookie is a
bufferevent, not a conn_t). -/
def socks_event_connected (O : Oracle) (bev : Side) (what : EvWhat) (c : Conn) :
    Option Res :=
  if what.connected then
    match c.socksState with
    | none => some Res.abort
    | some ss =>
      let ss1 := if O.getpeernameOk then O.setAddr ss O.peerAddr else ss
      let c1 := c.updInput
        (fun b => { b with writeBuf := b.writeBuf ++ O.socksReply ss1 0 })
      let c2 := { c1 with socksState := none }
      let c3 := c2.updInput
        (fun b => { b with readCb := ReadCb.upstreamRead,
                           writeCb := WriteCb.none, eventCb := EventCb.inputEvent })
      match c3.modifyBev Side.out
          (fun b => { b with readCb := ReadCb.downstreamRead,
                             writeCb := WriteCb.none,
                             eventCb := EventCb.outputEvent }) with
      | none => none
      | some c4 =>
        if c4.input.readBuf.length ≠ 0 then
          match downstream_read_raw O bev (CbArg.bevArg Side.inp) c4 with
          | none => none
          | some (Res.cont c5) => output_event bev what c5
          | some r => some r
        else output_event bev what c4
  else output_event bev what c

/-- Model of socks_event_cb (lines 636-689): assert the event fired on the
output side; when an ERROR arrives while the SOCKS status is ST_HAVE_ADDR the
outbound connect failed, so enable write and disable read on the input,
emit a negative SOCKS reply carrying the socket error, rewire the input
callbacks to close on flush, and return without falling through; otherwise
handle CONNECTED and fall through to output_event_cb. -/
def socks_event (O : Oracle) (bev : Side) (what : EvWhat) (c : Conn) :
    Option Res :=
  if bev ≠ Side.out then some Res.abort
  else if what.error then
    match c.socksState with
    | none => none
    | some ss =>
      if ss.status = SocksStatus.stHaveAddr then
        let c1 := c.updInput (fun b => { b with writeEnabled := true })
        let c2 := c1.updInput (fun b => { b with readEnabled := false })
        let c3 := c2.updInput
          (fun b => { b with writeBuf := b.writeBuf ++ O.socksReply ss O.sockErr })
        let c4 := c3.updInput
          (fun b => { b with readCb := ReadCb.none,
                             writeCb := WriteCb.closeConnOnFlush,
                             eventCb := EventCb.outputEvent })
        some (Res.cont c4)
      else socks_event_connected O bev what c
  else socks_event_connected O bev what c

/-- Externally visible steps a listener callback performs, recorded in source
order so that ordering facts (handshake before connect) can be stated. -/
inductive Act
  | newBev (s : Side)
  | setcb (s : Side)
  | handshake (s : Side)
  | connect
  | enable (s : Side)
deriving DecidableEq, Repr

/-- The ST_HAVE_ADDR branch of socks_read_cb (lines 450-483): create the
output bufferevent, install downstream_read_cb and socks_event_cb on it,
queue the protocol handshake into its write buffer, connect by hostname,
enable the output side, and on success disable both directions of the input.
The returned trace records the step order. -/
def socks_attach_outbound (O : Oracle) (c : Conn) : Option Res × List Act :=
  let out1 : BEV := { freshBEV with readCb := ReadCb.downstreamRead,
                                    writeCb := WriteCb.none,
                                    eventCb := EventCb.socksEvent }
  let out2 : BEV := { out1 with writeBuf := out1.writeBuf ++ O.handshakeBytes }
  if O.handshakeRet < 0 then
    (some Res.closed, [Act.newBev Side.out, Act.setcb Side.out, Act.handshake Side.out])
  else
    let out3 : BEV := { out2 with readEnabled := true, writeEnabled := true }
    let c1 := c.setBev Side.out out3
    if O.connectRet < 0 then
      (some Res.closed,
       [Act.newBev Side.out, Act.setcb Side.out, Act.handshake Side.out,
        Act.connect, Act.enable Side.out])
    else
      let c2 := c1.updInput
        (fun b => { b with readEnabled := false, writeEnabled := false })
      (some (Res.cont c2),
       [Act.newBev Side.out, Act.setcb Side.out, Act.handshake Side.out,
        Act.connect, Act.enable Side.out])

/-- The dispatch on the final handle_socks return value after the loop of
socks_read_cb (lines 490-502). -/
def socks_read_dispatch (O : Oracle) (ret : SocksRet) (c : Conn) : Option Res :=
  match ret with
  | SocksRet.good => none
  | SocksRet.incomplete => some (Res.cont c)
  | SocksRet.broken => some Res.closed
  | SocksRet.cmdNotConnect =>
    match c.socksState with
    | none => none
    | some ss =>
      let c1 := c.updInput (fun b => { b with writeEnabled := true })
      let c2 := c1.updInput (fun b => { b with readEnabled := false })
      let c3 := c2.updInput
        (fun b => { b with writeBuf :=
          b.writeBuf ++ O.socks5Reply ss socks5FailedUnsupported })
      let c4 := c3.updInput
        (fun b => { b with readCb := ReadCb.none,
                           writeCb := WriteCb.closeConnOnFlush,
                           eventCb := EventCb.outputEvent })
      some (Res.cont c4)

/-- The do-while loop of socks_read_cb (lines 445-488): inspect the SOCKS
status (abort on ST_SENT_REPLY, attach the outbound side on ST_HAVE_ADDR),
otherwise run handle_socks on the input buffers and loop while it returns
SOCKS_GOOD.  Fuel bounds the loop; running out of fuel is `none`. -/
def socks_read_loop (O : Oracle) (fuel : Nat) (c : Conn) : Option Res :=
  match fuel with
  | 0 => none
  | Nat.succ fuel =>
    match c.socksState with
    | none => none
    | some ss =>
      match ss.status with
      | SocksStatus.stSentReply => some Res.abort
      | SocksStatus.stHaveAddr => (socks_attach_outbound O c).1
      | SocksStatus.stInit =>
        let r := O.handleSocks ss c.input.readBuf c.input.writeBuf
        let c1 := { c.updInput
          (fun b => { b with readBuf := r.2.2.1, writeBuf := r.2.2.2 }) with
          socksState := some r.2.1 }
        if r.1 = SocksRet.good then socks_read_loop O fuel c1
        else socks_read_dispatch O r.1 c1

/-- Model of socks_read_cb (lines 437-503): assert the callback fired on the
input side, then run the negotiation loop. -/
def socks_read (O : Oracle) (fuel : Nat) (bev : Side) (c : Conn) : Option Res :=
  if bev ≠ Side.inp then some Res.abort
  else socks_read_loop O fuel c

/-- Dispatch an event arriving on one side of a connection to whichever
event callback is currently installed on that side, the way the reactor
does.  An absent bufferevent is `none`; an absent callback means libevent
does nothing. -/
def dispatch_event (O : Oracle) (side : Side) (what : EvWhat) (c : Conn) :
    Option Res :=
  match c.getBev side with
  | none => none
  | some b =>
    match b.eventCb with
    | EventCb.none => some (Res.cont c)
    | EventCb.inputEvent => input_event side what c
    | EventCb.outputEvent => output_event side what c
    | EventCb.socksEvent => socks_event O side what c

/-- Model of simple_client_listener_cb (lines 184-249).  Success returns the
registered connection plus the trace of steps in source order; any failure
(protocol creation, bufferevent creation, handshake, connect) frees the
partially built connection and registers nothing, modelled as `none`. -/
def simple_client_listener_cb (O : Oracle) : Option (Conn × List Act) :=
  if !O.protoCreateOk then none
  else if !O.inputNewOk then none
  else if !O.outputNewOk then none
  else
    let input1 : BEV := { freshBEV with readCb := ReadCb.upstreamRead,
                                        writeCb := WriteCb.none,
                                        eventCb := EventCb.inputEvent }
    let output1 : BEV := { freshBEV with readCb := ReadCb.downstreamRead,
                                         writeCb := WriteCb.none,
                                         eventCb := EventCb.outputEvent }
    let output2 : BEV := { output1 with writeBuf := output1.writeBuf ++ O.handshakeBytes }
    if O.handshakeRet < 0 then none
    else if O.connectRet < 0 then none
    else
      let output3 : BEV := { output2 with readEnabled := true, writeEnabled := true }
      some ({ mode := Mode.simpleClient, input := input1, output := some output3,
              socksState := none, isOpen := false, flushing := false },
            [Act.newBev Side.inp, Act.newBev Side.out, Act.setcb Side.inp,
             Act.setcb Side.out, Act.handshake Side.out, Act.connect,
             Act.enable Side.out])

/-- Model of simple_server_listener_cb (lines 311-377).  Identical template
to the simple client, but the callback pairing is swapped and the protocol
handshake is queued into the write buffer of the input bufferevent
(lines 352-353), not the outbound one. -/
def simple_server_listener_cb (O : Oracle) : Option (Conn × List Act) :=
  if !O.protoCreateOk then none
  else if !O.inputNewOk then none
  else
    let input1 : BEV := { freshBEV with readCb := ReadCb.downstreamRead,
                                        writeCb := WriteCb.none,
                                        eventCb := EventCb.inputEvent }
    if !O.outputNewOk then none
    else
      let output1 : BEV := { freshBEV with readCb := ReadCb.upstreamRead,
                                           writeCb := WriteCb.none,
                                           eventCb := EventCb.outputEvent }
      let input2 : BEV := { input1 with writeBuf := input1.writeBuf ++ O.handshakeBytes }
      if O.handshakeRet < 0 then none
      else if O.connectRet < 0 then none
      else
        let output2 : BEV := { output1 with readEnabled := true, writeEnabled := true }
        some ({ mode := Mode.simpleServer, input := input2, output := some output2,
                socksState := none, isOpen := false, flushing := false },
              [Act.newBev Side.inp, Act.setcb Side.inp, Act.newBev Side.out,
               Act.setcb Side.out, Act.handshake Side.inp, Act.connect,
               Act.enable Side.out])

/-- Model of socks_client_listener_cb (lines 255-305): wrap the accepted
socket, allocate a fresh SOCKS state, install socks_read_cb and
input_event_cb, and enable both read and write on the input immediately
(line 286).  No output bufferevent exists yet. -/
def socks_client_listener_cb (O : Oracle) : Option (Conn × List Act) :=
  if !O.protoCreateOk then none
  else if !O.inputNewOk then none
  else
    let input1 : BEV := { freshBEV with readCb := ReadCb.socksRead,
                                        writeCb := WriteCb.none,
                                        eventCb := EventCb.inputEvent,
                                        readEnabled := true, writeEnabled := true }
    some ({ mode := Mode.socksClient, input := input1, output := none,
            socksState := some { status := SocksStatus.stInit },
            isOpen := false, flushing := false },
          [Act.newBev Side.inp, Act.setcb Side.inp, Act.enable Side.inp])

/-- ProtocolParams as far as network.c inspects them: the listener mode. -/
structure ProtocolParams where
  mode : Mode
deriving DecidableEq, Repr

/-- The accept callback selected for a listener. -/
inductive AcceptCb
  | simpleClientCb
  | simpleServerCb
  | socksClientCb
deriving DecidableEq, Repr

/-- The callback selection switch of listener_new (lines 123-128). -/
def modeCallback : Mode → AcceptCb
  | Mode.simpleClient => AcceptCb.simpleClientCb
  | Mode.simpleServer => AcceptCb.simpleServerCb
  | Mode.socksClient => AcceptCb.socksClientCb

/-- A listener record: its accept callback and the ProtocolParams it owns
(`some` while owned, mirroring the proto_params pointer). -/
structure Listener where
  acceptCb : AcceptCb
  protoParams : Option ProtocolParams
deriving DecidableEq, Repr

/-- Overall outcome of listener_new: the returned pointer, the process-wide
listener set afterwards, and whether proto_params_free ran on the caller
argument. -/
structure ListenerNewResult where
  result : Option Listener
  listeners : Option (List Listener)
  paramsFreed : Bool
deriving DecidableEq, Repr

/-- Model of listener_new (lines 114-149): select the accept callback from
the mode, store the params into the new listener, bind.  On bind failure the
params are freed, the listener is freed and null is returned with the
process-wide set untouched; on success the set is created on demand and the
listener appended. -/
def listener_new (bindOk : Bool) (params : ProtocolParams)
    (listeners : Option (List Listener)) : ListenerNewResult :=
  let lsn : Listener := { acceptCb := modeCallback params.mode,
                          protoParams := some params }
  if !bindOk then
    { result := none, listeners := listeners, paramsFreed := true }
  else
    let ls := match listeners with
      | none => []
      | some l => l
    { result := some lsn, listeners := some (ls ++ [lsn]), paramsFreed := false }

/-- Process-wide registry and shutdown state of network.c: the nullable
connection list (tracked by its length), the shutting_down flag, and a count
of finish_shutdown invocations. -/
structure NetState where
  connections : Option Nat
  shuttingDown : Bool
  finishCalls : Nat
deriving DecidableEq, Repr

/-- Model of close_all_connections (lines 94-103): free every connection and
release the registry; an absent registry is left alone.  Either way the
registry is `none` afterwards and finish_shutdown is not called here. -/
def close_all_connections (s : NetState) : NetState :=
  { s with connections := none }

/-- Model of start_shutdown (lines 73-89): latch shutting_down, optionally
close all connections, release an empty registry, and call finish_shutdown
whenever the registry is absent at the end. -/
def start_shutdown (barbaric : Bool) (s : NetState) : NetState :=
  let s1 : NetState := { s with shuttingDown := true }
  let s2 := if barbaric then close_all_connections s1 else s1
  let s3 : NetState := match s2.connections with
    | some 0 => { s2 with connections := none }
    | _ => s2
  if s3.connections = none then { s3 with finishCalls := s3.finishCalls + 1 }
  else s3

/-- The registry side of close_conn (lines 401-419): assert the registry is
live (`none` models the failed assertion), remove the connection, release
the registry when it became empty, and call finish_shutdown when the
registry is gone and we are shutting down. -/
def close_conn_reg (s : NetState) : Option NetState :=
  match s.connections with
  | none => none
  | some n =>
    let s1 : NetState := { s with connections := if n - 1 = 0 then none else some (n - 1) }
    some (if s1.connections = none ∧ s1.shuttingDown = true then
            { s1 with finishCalls := s1.finishCalls + 1 }
          else s1)

/-- Operations that drive the registry and shutdown state. -/
inductive ShutdownOp
  | startShutdownOp (barbaric : Bool)
  | closeConnOp
deriving DecidableEq, Repr

/-- One step of the registry and shutdown transition system. -/
def netStep (s : NetState) : ShutdownOp → Option NetState
  | ShutdownOp.startShutdownOp b => some (start_shutdown b s)
  | ShutdownOp.closeConnOp => close_conn_reg s

/-- Run a sequence of shutdown operations from a state. -/
def netRun (s : NetState) : List ShutdownOp → Option NetState
  | [] => some s
  | op :: ops =>
    match netStep s op with
    | none => none
    | some s1 => netRun s1 ops

/-- Count the start_shutdown operations in a sequence. -/
def countStart : List ShutdownOp → Nat
  | [] => 0
  | ShutdownOp.startShutdownOp _ :: ops => countStart ops + 1
  | ShutdownOp.closeConnOp :: ops => countStart ops

/-- A pair of actions occurs in order inside a trace. -/
def beforeIn (a b : Act) (tr : List Act) : Prop :=
  ∃ i j, i < j ∧ tr.get? i = some a ∧ tr.get? j = some b

/-- A concrete oracle on which every external call succeeds; the protocol
handshake queues the single byte 1 and the SOCKS parser asks for more data. -/
def oK : Oracle :=
  { protoCreateOk := true, inputNewOk := true, outputNewOk := true,
    handshakeRet := 0, handshakeBytes := [1], connectRet := 0,
    protoSend := fun a b => (0, [], b ++ a),
    protoRecv := fun a b => (RecvRet.recvGood, [], b ++ a),
    handleSocks := fun s a b => (SocksRet.incomplete, s, a, b),
    socksReply := fun _ e => [5, e],
    socks5Reply := fun _ code => [5, code],
    sockErr := 111,
    getpeernameOk := true, peerAddr := 7,
    setAddr := fun s _ => s }

/-- A concrete oracle whose SOCKS parser reports a non-CONNECT command. -/
def oCmd : Oracle :=
  { oK with handleSocks := fun s a b => (SocksRet.cmdNotConnect, s, a, b) }

/-- A concrete oracle whose proto_recv asks for a follow-up send and whose
proto_send then fails with a negative return. -/
def oSP : Oracle :=
  { oK with protoRecv := fun a b => (RecvRet.recvSendPending, [], b ++ a),
            protoSend := fun a b => (-1, a, b) }

/-- A concrete open forwarding connection whose input side has one pending
byte in its write buffer. -/
def connFwd : Conn :=
  { mode := Mode.simpleClient,
    input := { readBuf := [3], writeBuf := [1], readEnabled := true,
               writeEnabled := true, readCb := ReadCb.upstreamRead,
               writeCb := WriteCb.none, eventCb := EventCb.inputEvent },
    output := some { readBuf := [4], writeBuf := [2], readEnabled := true,
                     writeEnabled := true, readCb := ReadCb.downstreamRead,
                     writeCb := WriteCb.none, eventCb := EventCb.outputEvent },
    socksState := none, isOpen := true, flushing := false }

/-- A concrete socks-mode connection waiting for its outbound connect: the
SOCKS status is ST_HAVE_ADDR, the input is disabled and holds one pipelined
byte in its read buffer, the output carries socks_event_cb. -/
def connSocksHA : Conn :=
  { mode := Mode.socksClient,
    input := { readBuf := [9], writeBuf := [], readEnabled := false,
               writeEnabled := false, readCb := ReadCb.socksRead,
               writeCb := WriteCb.none, eventCb := EventCb.inputEvent },
    output := some { readBuf := [], writeBuf := [1], readEnabled := true,
                     writeEnabled := true, readCb := ReadCb.downstreamRead,
                     writeCb := WriteCb.none, eventCb := EventCb.socksEvent },
    socksState := some { status := SocksStatus.stHaveAddr },
    isOpen := false, flushing := false }

/-- The same connection without pipelined client data. -/
def connSocksNoPipe : Conn :=
  connSocksHA.updInput (fun b => { b with readBuf := [] })

/-- A concrete socks-mode connection still negotiating (status ST_INIT). -/
def connSocksInit : Conn :=
  { connSocksHA with socksState := some { status := SocksStatus.stInit },
                     output := none,
                     input := { connSocksHA.input with readEnabled := true,
                                                       writeEnabled := true } }

/-- The CONNECTED event bits. -/
def evConnected : EvWhat :=
  { connected := true, eof := false, error := false, timeout := false }

/-- The ERROR event bits. -/
def evError : EvWhat :=
  { connected := false, eof := false, error := true, timeout := false }

/-- Claim C1: for every connection and every invocation of error_or_eof with
an errored side and a flush side: when flushing is already set, or the
connection is not open, or the write buffer of the flush side is empty, the
connection is closed immediately; otherwise flushing becomes true, read and
write are disabled on the errored stream, read is disabled on the flush
side, the write-complete callback of the flush side is rewired to
close_conn_on_flush, and write is enabled on the flush side. -/
theorem claim1_error_or_eof (c : Conn) (errS flushS : Side) (be bf : BEV)
    (hne : errS ≠ flushS)
    (he : c.getBev errS = some be) (hf : c.getBev flushS = some bf) :
    ((c.flushing = true ∨ c.isOpen = false ∨ bf.writeBuf = []) →
      error_or_eof c errS flushS = some Res.closed)
    ∧ (c.flushing = false → c.isOpen = true → bf.writeBuf ≠ [] →
      ∃ c2, error_or_eof c errS flushS = some (Res.cont c2)
        ∧ c2.flushing = true
        ∧ (∃ be2, c2.getBev errS = some be2
            ∧ be2.readEnabled = false ∧ be2.writeEnabled = false)
        ∧ (∃ bf2, c2.getBev flushS = some bf2
            ∧ bf2.readEnabled = false ∧ bf2.writeEnabled = true
            ∧ bf2.writeCb = WriteCb.closeConnOnFlush)) := by
  constructor
  · intro h
    unfold error_or_eof
    rcases h with h | h | h
    · simp [h]
    · simp [h]
    · by_cases hfl : c.flushing <;> by_cases hop : c.isOpen <;>
        simp [hfl, hop, hf, h]
  · intro hfl hop hwb
    cases errS <;> cases flushS
    · exact absurd rfl hne
    · cases he
      simp only [Conn.getBev] at hf
      have key : error_or_eof c Side.inp Side.out = some (Res.cont
          { c with flushing := true,
                   input := { c.input with readEnabled := false, writeEnabled := false },
                   output := some { bf with readEnabled := false, writeEnabled := true,
                                            readCb := ReadCb.none,
                                            writeCb := WriteCb.closeConnOnFlush,
                                            eventCb := EventCb.outputEvent } }) := by
        simp [error_or_eof, hfl, hop, hf, List.length_eq_zero, hwb,
          Conn.modifyBev, Conn.getBev, Conn.setBev]
      exact ⟨_, key, rfl, ⟨_, rfl, rfl, rfl⟩, ⟨_, rfl, rfl, rfl, rfl⟩⟩
    · cases hf
      simp only [Conn.getBev] at he
      have key : error_or_eof c Side.out Side.inp = some (Res.cont
          { c with flushing := true,
                   output := some { be with readEnabled := false, writeEnabled := false },
                   input := { c.input with readEnabled := false, writeEnabled := true,
                                           readCb := ReadCb.none,
                                           writeCb := WriteCb.closeConnOnFlush,
                                           eventCb := EventCb.outputEvent } }) := by
        simp [error_or_eof, hfl, hop, he, List.length_eq_zero, hwb,
          Conn.modifyBev, Conn.getBev, Conn.setBev]
      exact ⟨_, key, rfl, ⟨_, rfl, rfl, rfl⟩, ⟨_, rfl, rfl, rfl, rfl⟩⟩
    · exact absurd rfl hne

/-- Witness for claim C1 at a concrete open connection whose input side has
a pending byte, flushing toward the input. -/
theorem claim1_error_or_eof_witness :
    ∃ c2, error_or_eof connFwd Side.out Side.inp = some (Res.cont c2)
      ∧ c2.flushing = true
      ∧ (∃ be2, c2.getBev Side.out = some be2
          ∧ be2.readEnabled = false ∧ be2.writeEnabled = false)
      ∧ (∃ bf2, c2.getBev Side.inp = some bf2
          ∧ bf2.readEnabled = false ∧ bf2.writeEnabled = true
          ∧ bf2.writeCb = WriteCb.closeConnOnFlush) :=
  (claim1_error_or_eof connFwd Side.out Side.inp
    { readBuf := [4], writeBuf := [2], readEnabled := true,
      writeEnabled := true, readCb := ReadCb.downstreamRead,
      writeCb := WriteCb.none, eventCb := EventCb.outputEvent }
    connFwd.input (by decide) rfl rfl).2 rfl rfl (by decide)

/-- Every single step of the registry transition system leaves a state in
which a set shutting_down flag together with an absent registry implies
finish_shutdown already ran at least once. -/
theorem netStep_finish_invariant (s : NetState) (op : ShutdownOp) (s1 : NetState)
    (h : netStep s op = some s1) :
    s1.shuttingDown = true → s1.connections = none → 1 ≤ s1.finishCalls := by
  intro hsd hcn
  cases op with
  | startShutdownOp b =>
    injection h with h
    subst h
    cases b <;> rcases hc : s.connections with _ | (_ | n) <;>
      simp_all [start_shutdown, close_all_connections]
  | closeConnOp =>
    simp only [netStep, close_conn_reg] at h
    rcases hc : s.connections with _ | n
    · rw [hc] at h; cases h
    · rw [hc] at h
      injection h with h
      subst h
      by_cases hP : ((if n - 1 = 0 then none else some (n - 1)) :
            Option Nat) = none ∧ s.shuttingDown = true
      · simp [hP]
      · simp only [hP, if_false] at hcn hsd ⊢
        exact absurd ⟨hcn, hsd⟩ hP

/-- Running any operation sequence preserves the finish_shutdown invariant. -/
theorem netRun_finish_invariant (ops : List ShutdownOp) :
    ∀ s s1, (s.shuttingDown = true → s.connections = none → 1 ≤ s.finishCalls) →
      netRun s ops = some s1 →
      (s1.shuttingDown = true → s1.connections = none → 1 ≤ s1.finishCalls) := by
  induction ops with
  | nil =>
    intro s s1 hP h
    injection h with h
    subst h
    exact hP
  | cons op ops ih =>
    intro s s1 hP h
    simp only [netRun] at h
    rcases hs : netStep s op with _ | s2
    · rw [hs] at h; cases h
    · rw [hs] at h
      exact ih s2 s1 (netStep_finish_invariant s op s2 hs) h

/-- Across any operation sequence containing no start_shutdown call,
finish_shutdown fires at most once, and not at all when the registry is
already absent. -/
theorem netRun_close_only_bound (ops : List ShutdownOp) :
    ∀ s s1, countStart ops = 0 → netRun s ops = some s1 →
      s1.finishCalls ≤ s.finishCalls + 1 ∧
      (s.connections = none → s1.finishCalls = s.finishCalls) := by
  induction ops with
  | nil =>
    intro s s1 _ h
    injection h with h
    subst h
    exact ⟨Nat.le_succ _, fun _ => rfl⟩
  | cons op ops ih =>
    intro s s1 hcount h
    cases op with
    | startShutdownOp b => simp [countStart] at hcount
    | closeConnOp =>
      simp only [countStart] at hcount
      simp only [netRun, netStep] at h
      rcases hc : s.connections with _ | n
      · simp [close_conn_reg, hc] at h
      · simp only [close_conn_reg, hc] at h
        refine ⟨?_, fun hn => by simp [hc] at hn⟩
        by_cases hP : ((if n - 1 = 0 then none else some (n - 1)) :
            Option Nat) = none ∧ s.shuttingDown = true
        · rw [if_pos hP] at h
          have hrest := ih _ s1 hcount h
          have h2 : s1.finishCalls = s.finishCalls + 1 := hrest.2 hP.1
          exact le_of_eq h2
        · rw [if_neg hP] at h
          exact (ih _ s1 hcount h).1

/-- Claim C2 (amended): once shutting_down is set and the registry is empty,
finish_shutdown has been called at least once — it is never skipped — and a
sequence of close_conn calls alone never calls it more than once.  The
original claim of exactly-once fails: a repeated start_shutdown with an
empty registry invokes finish_shutdown again. -/
theorem claim2_finish_shutdown_amended (s0 : NetState) (ops : List ShutdownOp)
    (s1 : NetState) (h : netRun s0 ops = some s1) :
    (s0.shuttingDown = false → s1.shuttingDown = true → s1.connections = none →
      1 ≤ s1.finishCalls)
    ∧ (countStart ops = 0 → s1.finishCalls ≤ s0.finishCalls + 1) := by
  constructor
  · intro h0 hsd hcn
    refine netRun_finish_invariant ops s0 s1 (fun hs _ => ?_) h hsd hcn
    rw [h0] at hs
    cases hs
  · intro hcount
    exact (netRun_close_only_bound ops s0 s1 hcount h).1

/-- Witness for the amended claim C2: one start_shutdown followed by the
close of the last connection calls finish_shutdown exactly once, and a pure
close_conn sequence stays within one call. -/
theorem claim2_finish_shutdown_amended_witness :
    1 ≤ ({ connections := none, shuttingDown := true, finishCalls := 1 } :
          NetState).finishCalls ∧
    ({ connections := none, shuttingDown := false, finishCalls := 0 } :
        NetState).finishCalls ≤
      ({ connections := some 1, shuttingDown := false, finishCalls := 0 } :
          NetState).finishCalls + 1 :=
  ⟨(claim2_finish_shutdown_amended
      { connections := some 1, shuttingDown := false, finishCalls := 0 }
      [ShutdownOp.startShutdownOp false, ShutdownOp.closeConnOp]
      { connections := none, shuttingDown := true, finishCalls := 1 }
      (by decide)).1 rfl rfl rfl,
   (claim2_finish_shutdown_amended
      { connections := some 1, shuttingDown := false, finishCalls := 0 }
      [ShutdownOp.closeConnOp]
      { connections := none, shuttingDown := false, finishCalls := 0 }
      (by decide)).2 rfl⟩

/-- Counterexample to claim C2 as stated: two consecutive non-barbaric
start_shutdown calls with an absent registry reach a state where
shutting_down is set and the registry is empty but finish_shutdown has run
twice, not exactly once. -/
theorem claim2_finish_shutdown_counterexample :
    netRun { connections := none, shuttingDown := false, finishCalls := 0 }
        [ShutdownOp.startShutdownOp false, ShutdownOp.startShutdownOp false] =
      some { connections := none, shuttingDown := true, finishCalls := 2 } ∧
    (2 : Nat) ≠ 1 :=
  ⟨by decide, by decide⟩

/-- Claim C3, evaluation at the failing input: when CONNECTED arrives on the
output side of a socks connection whose input read buffer holds pipelined
client data, socks_event_cb reaches line 684, which invokes
downstream_read_cb passing conn->input — a bufferevent — as the void*
cookie that downstream_read_cb casts to conn_t*.  The model result is
`none` (undefined behaviour), so downstream_read is never run on the
connection; with no pipelined data the same event completes normally and
opens the connection. -/
theorem claim3_pipelined_data_bug :
    socks_event oK Side.out evConnected connSocksHA = none ∧
    connSocksHA.input.readBuf ≠ [] ∧
    (∃ c2, socks_event oK Side.out evConnected connSocksNoPipe =
      some (Res.cont c2) ∧ c2.isOpen = true) := by
  refine ⟨by decide, by decide, ?_⟩
  have key : socks_event oK Side.out evConnected connSocksNoPipe = some (Res.cont
      { mode := Mode.socksClient,
        input := { readBuf := [], writeBuf := [5, 0], readEnabled := true,
                   writeEnabled := true, readCb := ReadCb.upstreamRead,
                   writeCb := WriteCb.none, eventCb := EventCb.inputEvent },
        output := some { readBuf := [], writeBuf := [1], readEnabled := true,
                         writeEnabled := true, readCb := ReadCb.downstreamRead,
                         writeCb := WriteCb.none, eventCb := EventCb.outputEvent },
        socksState := none, isOpen := true, flushing := false }) := by decide
  exact ⟨_, key, rfl⟩

/-- Storing a bufferevent does not change the is_open flag. -/
theorem Conn.setBev_isOpen (c : Conn) (s : Side) (b : BEV) :
    (c.setBev s b).isOpen = c.isOpen := by
  cases s <;> rfl

/-- Updating a bufferevent in place does not change the is_open flag. -/
theorem Conn.modifyBev_isOpen (c : Conn) (s : Side) (f : BEV → BEV) (c2 : Conn)
    (h : c.modifyBev s f = some c2) : c2.isOpen = c.isOpen := by
  unfold Conn.modifyBev at h
  rcases hb : c.getBev s with _ | b
  · rw [hb] at h; cases h
  · rw [hb] at h
    injection h with h
    subst h
    exact Conn.setBev_isOpen c s (f b)

/-- Updating the input bufferevent does not change the is_open flag. -/
theorem Conn.updInput_isOpen (c : Conn) (f : BEV → BEV) :
    (c.updInput f).isOpen = c.isOpen := rfl

/-- When error_or_eof leaves the connection alive it does not change the
is_open flag. -/
theorem error_or_eof_isOpen (c : Conn) (eS fS : Side) (c2 : Conn)
    (h : error_or_eof c eS fS = some (Res.cont c2)) : c2.isOpen = c.isOpen := by
  unfold error_or_eof at h
  split_ifs at h
  · simp at h
  · simp at h
  · rcases hf : c.getBev fS with _ | bf
    · rw [hf] at h; cases h
    · rw [hf] at h
      dsimp only at h
      split_ifs at h
      · simp at h
      · rcases m1 : ({ c with flushing := true } : Conn).modifyBev eS
            (fun b => { b with readEnabled := false, writeEnabled := false }) with _ | d1
        · rw [m1] at h; cases h
        · rw [m1] at h
          dsimp only at h
          rcases m2 : d1.modifyBev fS (fun b => { b with readEnabled := false }) with _ | d2
          · rw [m2] at h; cases h
          · rw [m2] at h
            dsimp only at h
            rcases m3 : d2.modifyBev fS
                (fun b => { b with readCb := ReadCb.none,
                                   writeCb := WriteCb.closeConnOnFlush,
                                   eventCb := EventCb.outputEvent }) with _ | d3
            · rw [m3] at h; cases h
            · rw [m3] at h
              dsimp only at h
              rcases m4 : d3.modifyBev fS (fun b => { b with writeEnabled := true }) with _ | d4
              · rw [m4] at h; cases h
              · rw [m4] at h
                dsimp only at h
                injection h with h
                injection h with h
                subst h
                calc d4.isOpen = d3.isOpen := Conn.modifyBev_isOpen d3 fS _ d4 m4
                  _ = d2.isOpen := Conn.modifyBev_isOpen d2 fS _ d3 m3
                  _ = d1.isOpen := Conn.modifyBev_isOpen d1 fS _ d2 m2
                  _ = ({ c with flushing := true } : Conn).isOpen :=
                    Conn.modifyBev_isOpen _ eS _ d1 m1
                  _ = c.isOpen := rfl

/-- When close_conn_on_flush leaves the connection alive it does not change
the is_open flag. -/
theorem close_conn_on_flush_isOpen (bev : Side) (c c2 : Conn)
    (h : close_conn_on_flush bev c = some (Res.cont c2)) : c2.isOpen = c.isOpen := by
  unfold close_conn_on_flush at h
  rcases hb : c.getBev bev with _ | b
  · rw [hb] at h; cases h
  · rw [hb] at h
    dsimp only at h
    split_ifs at h
    · simp at h
    · injection h with h
      injection h with h
      subst h
      rfl

/-- When input_event leaves the connection alive it does not change the
is_open flag. -/
theorem input_event_isOpen (bev : Side) (what : EvWhat) (c c2 : Conn)
    (h : input_event bev what c = some (Res.cont c2)) : c2.isOpen = c.isOpen := by
  unfold input_event at h
  split_ifs at h
  · simp at h
  · simp at h
  · simp at h
  · exact error_or_eof_isOpen c bev Side.out c2 h

/-- When upstream_read leaves the connection alive it does not change the
is_open flag. -/
theorem upstream_read_isOpen (O : Oracle) (bev : Side) (c c2 : Conn)
    (h : upstream_read O bev c = some (Res.cont c2)) : c2.isOpen = c.isOpen := by
  cases bev with
  | inp =>
    rcases ho : c.output with _ | bO
    · simp [upstream_read, Conn.getBev, ho] at h
    · simp [upstream_read, Conn.getBev, ho] at h
      split_ifs at h
      · simp at h
      · simp only [Option.some.injEq, Res.cont.injEq] at h
        subst h
        rfl
  | out =>
    rcases ho : c.output with _ | bO
    · simp [upstream_read, Conn.getBev, ho] at h
    · simp [upstream_read, Conn.getBev, ho] at h
      split_ifs at h
      · simp at h
      · simp only [Option.some.injEq, Res.cont.injEq] at h
        subst h
        rfl

/-- When downstream_read leaves the connection alive it does not change the
is_open flag. -/
theorem downstream_read_isOpen (O : Oracle) (bev : Side) (c c2 : Conn)
    (h : downstream_read O bev c = some (Res.cont c2)) : c2.isOpen = c.isOpen := by
  cases bev with
  | inp =>
    rcases ho : c.output with _ | bO
    · simp [downstream_read, Conn.getBev, ho] at h
    · rcases hr : (O.protoRecv c.input.readBuf bO.writeBuf).1 with _ | _ | _ <;>
          simp [downstream_read, Conn.getBev, Conn.setBev, ho, hr] at h <;>
          subst h <;> rfl
  | out =>
    rcases ho : c.output with _ | bO
    · simp [downstream_read, Conn.getBev, ho] at h
    · rcases hr : (O.protoRecv bO.readBuf c.input.writeBuf).1 with _ | _ | _ <;>
          simp [downstream_read, Conn.getBev, Conn.setBev, ho, hr] at h <;>
          subst h <;> rfl

/-- When the attach-outbound substate leaves the connection alive it does
not change the is_open flag. -/
theorem socks_attach_isOpen (O : Oracle) (c c2 : Conn)
    (h : (socks_attach_outbound O c).1 = some (Res.cont c2)) : c2.isOpen = c.isOpen := by
  unfold socks_attach_outbound at h
  dsimp only at h
  split_ifs at h
  · simp at h
  · simp at h
  · injection h with h
    injection h with h
    subst h
    rfl

/-- When the post-loop dispatch of socks_read leaves the connection alive it
does not change the is_open flag. -/
theorem socks_dispatch_isOpen (O : Oracle) (ret : SocksRet) (c c2 : Conn)
    (h : socks_read_dispatch O ret c = some (Res.cont c2)) : c2.isOpen = c.isOpen := by
  unfold socks_read_dispatch at h
  cases ret
  · cases h
  · injection h with h
    injection h with h
    subst h
    rfl
  · simp at h
  · rcases hs : c.socksState with _ | ss
    · rw [hs] at h; cases h
    · rw [hs] at h
      dsimp only at h
      injection h with h
      injection h with h
      subst h
      rfl

/-- When the socks_read loop leaves the connection alive it does not change
the is_open flag. -/
theorem socks_loop_isOpen (O : Oracle) (fuel : Nat) :
    ∀ c c2, socks_read_loop O fuel c = some (Res.cont c2) → c2.isOpen = c.isOpen := by
  induction fuel with
  | zero => intro c c2 h; cases h
  | succ fuel ih =>
    intro c c2 h
    unfold socks_read_loop at h
    rcases hs : c.socksState with _ | ss
    · rw [hs] at h; cases h
    · rw [hs] at h
      dsimp only at h
      rcases hst : ss.status with _ | _ | _ <;> rw [hst] at h <;> dsimp only at h
      · split_ifs at h
        · exact (ih _ c2 h).trans rfl
        · exact (socks_dispatch_isOpen O _ _ c2 h).trans rfl
      · exact socks_attach_isOpen O c c2 h
      · simp at h

/-- When socks_read leaves the connection alive it does not change the
is_open flag. -/
theorem socks_read_isOpen (O : Oracle) (fuel : Nat) (bev : Side) (c c2 : Conn)
    (h : socks_read O fuel bev c = some (Res.cont c2)) : c2.isOpen = c.isOpen := by
  unfold socks_read at h
  split_ifs at h
  · simp at h
  · exact socks_loop_isOpen O fuel c c2 h

/-- Counterexample to claim C4 as stated: the SocksClient listener callback
enables reading on the input stream immediately (line 286), while is_open is
still false, so the no-read-before-open invariant does not hold in every
mode. -/
theorem claim4_input_gating_counterexample :
    ∃ c tr, socks_client_listener_cb oK = some (c, tr)
      ∧ c.isOpen = false ∧ c.input.readEnabled = true := by
  have key : socks_client_listener_cb oK = some
      ({ mode := Mode.socksClient,
         input := { readBuf := [], writeBuf := [], readEnabled := true,
                    writeEnabled := true, readCb := ReadCb.socksRead,
                    writeCb := WriteCb.none, eventCb := EventCb.inputEvent },
         output := none,
         socksState := some { status := SocksStatus.stInit },
         isOpen := false, flushing := false },
       [Act.newBev Side.inp, Act.setcb Side.inp, Act.enable Side.inp]) := by decide
  exact ⟨_, _, key, rfl, rfl⟩

/-- Claim C4 (amended): for SimpleClient and SimpleServer connections the
input read events are disabled at setup while is_open is false, so no bytes
are consumed before the output path exists; for SocksClient connections the
listener enables input reading immediately to run the SOCKS negotiation.
is_open becomes true only when output_event receives CONNECTED, which then
enables input reading: every other callback that leaves the connection
alive preserves is_open. -/
theorem claim4_input_gating_amended :
    (∀ O c tr, simple_client_listener_cb O = some (c, tr) →
      c.isOpen = false ∧ c.input.readEnabled = false)
    ∧ (∀ O c tr, simple_server_listener_cb O = some (c, tr) →
      c.isOpen = false ∧ c.input.readEnabled = false)
    ∧ (∀ O c tr, socks_client_listener_cb O = some (c, tr) →
      c.isOpen = false ∧ c.input.readEnabled = true)
    ∧ (∀ c what, c.flushing = false → what.eof = false → what.error = false →
        what.timeout = false → what.connected = true →
        ∃ c2, output_event Side.out what c = some (Res.cont c2)
          ∧ c2.isOpen = true ∧ c2.input.readEnabled = true)
    ∧ (∀ bev what c c2, input_event bev what c = some (Res.cont c2) →
        c2.isOpen = c.isOpen)
    ∧ (∀ c eS fS c2, error_or_eof c eS fS = some (Res.cont c2) →
        c2.isOpen = c.isOpen)
    ∧ (∀ O bev c c2, upstream_read O bev c = some (Res.cont c2) →
        c2.isOpen = c.isOpen)
    ∧ (∀ O bev c c2, downstream_read O bev c = some (Res.cont c2) →
        c2.isOpen = c.isOpen)
    ∧ (∀ O fuel bev c c2, socks_read O fuel bev c = some (Res.cont c2) →
        c2.isOpen = c.isOpen)
    ∧ (∀ bev c c2, close_conn_on_flush bev c = some (Res.cont c2) →
        c2.isOpen = c.isOpen) := by
  refine ⟨?_, ?_, ?_, ?_,
    fun bev what c c2 h => input_event_isOpen bev what c c2 h,
    fun c eS fS c2 h => error_or_eof_isOpen c eS fS c2 h,
    fun O bev c c2 h => upstream_read_isOpen O bev c c2 h,
    fun O bev c c2 h => downstream_read_isOpen O bev c c2 h,
    fun O fuel bev c c2 h => socks_read_isOpen O fuel bev c c2 h,
    fun bev c c2 h => close_conn_on_flush_isOpen bev c c2 h⟩
  · intro O c tr h
    simp only [simple_client_listener_cb] at h
    split_ifs at h <;> simp_all
    rcases h with ⟨hc, htr⟩
    subst hc
    exact ⟨rfl, rfl⟩
  · intro O c tr h
    simp only [simple_server_listener_cb] at h
    split_ifs at h <;> simp_all
    rcases h with ⟨hc, htr⟩
    subst hc
    exact ⟨rfl, rfl⟩
  · intro O c tr h
    simp only [socks_client_listener_cb] at h
    split_ifs at h <;> simp_all
    rcases h with ⟨hc, htr⟩
    subst hc
    exact ⟨rfl, rfl⟩
  · intro c what h1 h2 h3 h4 h5
    have key : output_event Side.out what c = some (Res.cont
        ({ c with isOpen := true }.updInput
          (fun b => { b with readEnabled := true, writeEnabled := true }))) := by
      simp [output_event, h1, h2, h3, h4, h5]
    exact ⟨_, key, rfl, rfl⟩

/-- Witness for the amended claim C4 at concrete inputs: the simple-client
setup leaves input reading disabled while not open, and a CONNECTED event on
the output of a not-yet-open connection opens it and enables input reading. -/
theorem claim4_input_gating_amended_witness :
    (({ mode := Mode.simpleClient,
        input := { readBuf := [], writeBuf := [], readEnabled := false,
                   writeEnabled := false, readCb := ReadCb.upstreamRead,
                   writeCb := WriteCb.none, eventCb := EventCb.inputEvent },
        output := some { readBuf := [], writeBuf := [1], readEnabled := true,
                         writeEnabled := true, readCb := ReadCb.downstreamRead,
                         writeCb := WriteCb.none, eventCb := EventCb.outputEvent },
        socksState := none, isOpen := false, flushing := false } : Conn).isOpen = false
      ∧ ({ mode := Mode.simpleClient,
           input := { readBuf := [], writeBuf := [], readEnabled := false,
                      writeEnabled := false, readCb := ReadCb.upstreamRead,
                      writeCb := WriteCb.none, eventCb := EventCb.inputEvent },
           output := some { readBuf := [], writeBuf := [1], readEnabled := true,
                            writeEnabled := true, readCb := ReadCb.downstreamRead,
                            writeCb := WriteCb.none, eventCb := EventCb.outputEvent },
           socksState := none, isOpen := false, flushing := false } : Conn).input.readEnabled = false)
    ∧ (∃ c2, output_event Side.out evConnected connSocksNoPipe = some (Res.cont c2)
        ∧ c2.isOpen = true ∧ c2.input.readEnabled = true) :=
  ⟨claim4_input_gating_amended.1 oK _
      [Act.newBev Side.inp, Act.newBev Side.out, Act.setcb Side.inp,
       Act.setcb Side.out, Act.handshake Side.out, Act.connect,
       Act.enable Side.out] (by decide),
   claim4_input_gating_amended.2.2.2.1 connSocksNoPipe evConnected
      rfl rfl rfl rfl rfl⟩

/-- Claim C5: listener_new either succeeds, returning a listener that has
taken ownership of the ProtocolParams and has been appended to the
process-wide listener set, or fails on bind, in which case the params are
freed, null is returned and the listener set is unchanged (no partial
registration is observable). -/
theorem claim5_listener_new (bindOk : Bool) (params : ProtocolParams)
    (listeners : Option (List Listener)) :
    (bindOk = true →
      ∃ lsn ls1, (listener_new bindOk params listeners).result = some lsn
        ∧ lsn.protoParams = some params
        ∧ (listener_new bindOk params listeners).listeners = some ls1
        ∧ ls1 = listeners.getD [] ++ [lsn]
        ∧ lsn ∈ ls1
        ∧ (listener_new bindOk params listeners).paramsFreed = false)
    ∧ (bindOk = false →
      (listener_new bindOk params listeners).result = none
      ∧ (listener_new bindOk params listeners).listeners = listeners
      ∧ (listener_new bindOk params listeners).paramsFreed = true) := by
  constructor
  · intro hb
    subst hb
    refine ⟨{ acceptCb := modeCallback params.mode, protoParams := some params },
      listeners.getD [] ++
        [{ acceptCb := modeCallback params.mode, protoParams := some params }],
      ?_, rfl, ?_, rfl, by simp, ?_⟩
    · simp [listener_new]
    · cases listeners <;> simp [listener_new]
    · simp [listener_new]
  · intro hb
    subst hb
    exact ⟨rfl, rfl, rfl⟩

/-- Witness for claim C5 at concrete inputs: a successful bind with an empty
set registers the listener; a failed bind frees the params and leaves the
set untouched. -/
theorem claim5_listener_new_witness :
    (∃ lsn ls1,
      (listener_new true { mode := Mode.simpleClient } none).result = some lsn
      ∧ lsn.protoParams = some { mode := Mode.simpleClient }
      ∧ (listener_new true { mode := Mode.simpleClient } none).listeners = some ls1
      ∧ ls1 = (none : Option (List Listener)).getD [] ++ [lsn]
      ∧ lsn ∈ ls1
      ∧ (listener_new true { mode := Mode.simpleClient } none).paramsFreed = false)
    ∧ ((listener_new false { mode := Mode.simpleClient } none).result = none
      ∧ (listener_new false { mode := Mode.simpleClient } none).listeners = none
      ∧ (listener_new false { mode := Mode.simpleClient } none).paramsFreed = true) :=
  ⟨(claim5_listener_new true { mode := Mode.simpleClient } none).1 rfl,
   (claim5_listener_new false { mode := Mode.simpleClient } none).2 rfl⟩

/-- Counterexample to claim C6 as stated: in the simple-server acceptance
flow the protocol handshake bytes are queued into the write buffer of the
input bufferevent (lines 352-353), not the outbound one, so with the
non-empty handshake [1] the outbound write buffer is still empty when the
connect call is issued and on return. -/
theorem claim6_handshake_counterexample :
    ∃ c tr, simple_server_listener_cb oK = some (c, tr)
      ∧ oK.handshakeBytes = [1]
      ∧ c.input.writeBuf = [1]
      ∧ c.output = some { readBuf := [], writeBuf := [], readEnabled := true,
                          writeEnabled := true, readCb := ReadCb.upstreamRead,
                          writeCb := WriteCb.none, eventCb := EventCb.outputEvent } := by
  have key : simple_server_listener_cb oK = some
      ({ mode := Mode.simpleServer,
         input := { readBuf := [], writeBuf := [1], readEnabled := false,
                    writeEnabled := false, readCb := ReadCb.downstreamRead,
                    writeCb := WriteCb.none, eventCb := EventCb.inputEvent },
         output := some { readBuf := [], writeBuf := [], readEnabled := true,
                          writeEnabled := true, readCb := ReadCb.upstreamRead,
                          writeCb := WriteCb.none, eventCb := EventCb.outputEvent },
         socksState := none, isOpen := false, flushing := false },
       [Act.newBev Side.inp, Act.setcb Side.inp, Act.newBev Side.out,
        Act.setcb Side.out, Act.handshake Side.inp, Act.connect,
        Act.enable Side.out]) := by decide
  exact ⟨_, _, key, rfl, rfl, rfl⟩

/-- Claim C6 (amended): in every acceptance flow the protocol handshake is
queued before the connect call is issued; the bytes go into the outbound
write buffer for the simple-client flow and the socks attach-outbound
substate, but into the INPUT write buffer for the simple-server flow (whose
outbound write buffer stays empty). -/
theorem claim6_handshake_before_connect_amended :
    (∀ O c tr, simple_client_listener_cb O = some (c, tr) →
      beforeIn (Act.handshake Side.out) Act.connect tr
      ∧ ∃ ob, c.output = some ob ∧ ob.writeBuf = O.handshakeBytes)
    ∧ (∀ O c tr, simple_server_listener_cb O = some (c, tr) →
      beforeIn (Act.handshake Side.inp) Act.connect tr
      ∧ c.input.writeBuf = O.handshakeBytes
      ∧ ∃ ob, c.output = some ob ∧ ob.writeBuf = [])
    ∧ (∀ O c r tr, socks_attach_outbound O c = (some (Res.cont r), tr) →
      beforeIn (Act.handshake Side.out) Act.connect tr
      ∧ ∃ ob, r.output = some ob ∧ ob.writeBuf = O.handshakeBytes) := by
  refine ⟨?_, ?_, ?_⟩
  · intro O c tr h
    simp only [simple_client_listener_cb] at h
    split_ifs at h <;> simp_all
    rcases h with ⟨hc, htr⟩
    subst hc
    subst htr
    exact ⟨⟨4, 5, by decide, rfl, rfl⟩, ⟨_, rfl, by simp [freshBEV]⟩⟩
  · intro O c tr h
    simp only [simple_server_listener_cb] at h
    split_ifs at h <;> simp_all
    rcases h with ⟨hc, htr⟩
    subst hc
    subst htr
    exact ⟨⟨4, 5, by decide, rfl, rfl⟩, by simp [freshBEV], ⟨_, rfl, rfl⟩⟩
  · intro O c r tr h
    simp only [socks_attach_outbound, Conn.modifyBev, Conn.getBev, Conn.setBev] at h
    split_ifs at h <;> simp_all
    rcases h with ⟨hr, htr⟩
    subst htr
    subst hr
    exact ⟨⟨2, 3, by decide, rfl, rfl⟩, ⟨_, rfl, by simp [freshBEV]⟩⟩

/-- Witness for the amended claim C6 at the concrete oracle oK in the
simple-client flow: the handshake step precedes the connect step and the
handshake byte sits in the outbound write buffer. -/
theorem claim6_handshake_before_connect_amended_witness :
    beforeIn (Act.handshake Side.out) Act.connect
      [Act.newBev Side.inp, Act.newBev Side.out, Act.setcb Side.inp,
       Act.setcb Side.out, Act.handshake Side.out, Act.connect,
       Act.enable Side.out]
    ∧ ∃ ob, ({ mode := Mode.simpleClient,
               input := { readBuf := [], writeBuf := [], readEnabled := false,
                          writeEnabled := false, readCb := ReadCb.upstreamRead,
                          writeCb := WriteCb.none, eventCb := EventCb.inputEvent },
               output := some { readBuf := [], writeBuf := [1],
                                readEnabled := true, writeEnabled := true,
                                readCb := ReadCb.downstreamRead,
                                writeCb := WriteCb.none,
                                eventCb := EventCb.outputEvent },
               socksState := none, isOpen := false,
               flushing := false } : Conn).output = some ob
        ∧ ob.writeBuf = oK.handshakeBytes :=
  claim6_handshake_before_connect_amended.1 oK
    { mode := Mode.simpleClient,
      input := { readBuf := [], writeBuf := [], readEnabled := false,
                 writeEnabled := false, readCb := ReadCb.upstreamRead,
                 writeCb := WriteCb.none, eventCb := EventCb.inputEvent },
      output := some { readBuf := [], writeBuf := [1], readEnabled := true,
                       writeEnabled := true, readCb := ReadCb.downstreamRead,
                       writeCb := WriteCb.none, eventCb := EventCb.outputEvent },
      socksState := none, isOpen := false, flushing := false }
    [Act.newBev Side.inp, Act.newBev Side.out, Act.setcb Side.inp,
     Act.setcb Side.out, Act.handshake Side.out, Act.connect,
     Act.enable Side.out] (by decide)

/-- Claim C7: when handle_socks returns SOCKS_CMD_NOT_CONNECT during the
negotiation loop, socks_read disables reading and enables writing on the
input stream, enqueues the SOCKS5 command-unsupported reply into the input
write buffer, rewires the write-complete callback to close_conn_on_flush
and returns with the connection alive; close_conn_on_flush then closes the
connection exactly when that reply has drained. -/
theorem claim7_cmd_not_connect (O : Oracle) (fuel : Nat) (c : Conn)
    (ss ss2 : SocksState) (rb2 wb2 : List Nat)
    (hss : c.socksState = some ss) (hst : ss.status = SocksStatus.stInit)
    (hhs : O.handleSocks ss c.input.readBuf c.input.writeBuf =
      (SocksRet.cmdNotConnect, ss2, rb2, wb2)) :
    ∃ c2, socks_read O (fuel + 1) Side.inp c = some (Res.cont c2)
      ∧ c2.input.readEnabled = false
      ∧ c2.input.writeEnabled = true
      ∧ c2.input.writeBuf = wb2 ++ O.socks5Reply ss2 socks5FailedUnsupported
      ∧ c2.input.writeCb = WriteCb.closeConnOnFlush
      ∧ c2.input.readCb = ReadCb.none
      ∧ c2.input.eventCb = EventCb.outputEvent
      ∧ (∀ c3 : Conn, c3.input.writeBuf = [] →
          close_conn_on_flush Side.inp c3 = some Res.closed)
      ∧ (c2.input.writeBuf ≠ [] →
          close_conn_on_flush Side.inp c2 = some (Res.cont c2)) := by
  have key : socks_read O (fuel + 1) Side.inp c = some (Res.cont
      { c with
        input := { c.input with
                   readBuf := rb2,
                   writeBuf := wb2 ++ O.socks5Reply ss2 socks5FailedUnsupported,
                   readEnabled := false,
                   writeEnabled := true,
                   readCb := ReadCb.none,
                   writeCb := WriteCb.closeConnOnFlush,
                   eventCb := EventCb.outputEvent },
        socksState := some ss2 }) := by
    simp [socks_read, socks_read_loop, socks_read_dispatch, Conn.updInput,
      hss, hst, hhs]
  refine ⟨_, key, rfl, rfl, rfl, rfl, rfl, rfl, ?_, ?_⟩
  · intro c3 h3
    simp [close_conn_on_flush, Conn.getBev, h3]
  · intro hne
    simp only [close_conn_on_flush, Conn.getBev]
    rw [if_neg]
    simpa [List.length_eq_zero] using hne

/-- Witness for claim C7: a concrete negotiating connection whose SOCKS
parser reports a non-CONNECT command. -/
theorem claim7_cmd_not_connect_witness :
    ∃ c2, socks_read oCmd 1 Side.inp connSocksInit = some (Res.cont c2)
      ∧ c2.input.readEnabled = false
      ∧ c2.input.writeEnabled = true
      ∧ c2.input.writeBuf =
          [] ++ oCmd.socks5Reply { status := SocksStatus.stInit } socks5FailedUnsupported
      ∧ c2.input.writeCb = WriteCb.closeConnOnFlush
      ∧ c2.input.readCb = ReadCb.none
      ∧ c2.input.eventCb = EventCb.outputEvent
      ∧ (∀ c3 : Conn, c3.input.writeBuf = [] →
          close_conn_on_flush Side.inp c3 = some Res.closed)
      ∧ (c2.input.writeBuf ≠ [] →
          close_conn_on_flush Side.inp c2 = some (Res.cont c2)) :=
  claim7_cmd_not_connect oCmd 0 connSocksInit
    { status := SocksStatus.stInit } { status := SocksStatus.stInit }
    [9] [] rfl rfl rfl

/-- Claim C8: when an ERROR event reaches socks_event while the SOCKS status
is ST_HAVE_ADDR (the outbound connect failed), the handler enables write and
disables read on the input stream, enqueues a negative SOCKS reply carrying
the underlying socket error into the input write buffer, rewires the input
write-complete callback to close_conn_on_flush, and returns without falling
through to the generic output_event handling: the output side, the is_open
and flushing flags and the socks state are untouched. -/
theorem claim8_socks_connect_failure (O : Oracle) (what : EvWhat) (c : Conn)
    (ss : SocksState) (herr : what.error = true) (hss : c.socksState = some ss)
    (hst : ss.status = SocksStatus.stHaveAddr) :
    ∃ c2, socks_event O Side.out what c = some (Res.cont c2)
      ∧ c2.input.writeEnabled = true
      ∧ c2.input.readEnabled = false
      ∧ c2.input.writeBuf = c.input.writeBuf ++ O.socksReply ss O.sockErr
      ∧ c2.input.writeCb = WriteCb.closeConnOnFlush
      ∧ c2.input.eventCb = EventCb.outputEvent
      ∧ c2.input.readCb = ReadCb.none
      ∧ c2.output = c.output
      ∧ c2.isOpen = c.isOpen
      ∧ c2.flushing = c.flushing
      ∧ c2.socksState = c.socksState := by
  have key : socks_event O Side.out what c = some (Res.cont
      { c with
        input := { c.input with
                   writeEnabled := true,
                   readEnabled := false,
                   writeBuf := c.input.writeBuf ++ O.socksReply ss O.sockErr,
                   readCb := ReadCb.none,
                   writeCb := WriteCb.closeConnOnFlush,
                   eventCb := EventCb.outputEvent } }) := by
    simp [socks_event, Conn.updInput, herr, hss, hst]
  exact ⟨_, key, rfl, rfl, rfl, rfl, rfl, rfl, rfl, rfl, rfl, rfl⟩

/-- Witness for claim C8: an ERROR event on the concrete connection waiting
in ST_HAVE_ADDR for its outbound connect. -/
theorem claim8_socks_connect_failure_witness :
    ∃ c2, socks_event oK Side.out evError connSocksHA = some (Res.cont c2)
      ∧ c2.input.writeEnabled = true
      ∧ c2.input.readEnabled = false
      ∧ c2.input.writeBuf = connSocksHA.input.writeBuf ++
          oK.socksReply { status := SocksStatus.stHaveAddr } oK.sockErr
      ∧ c2.input.writeCb = WriteCb.closeConnOnFlush
      ∧ c2.input.eventCb = EventCb.outputEvent
      ∧ c2.input.readCb = ReadCb.none
      ∧ c2.output = connSocksHA.output
      ∧ c2.isOpen = connSocksHA.isOpen
      ∧ c2.flushing = connSocksHA.flushing
      ∧ c2.socksState = connSocksHA.socksState :=
  claim8_socks_connect_failure oK evError connSocksHA
    { status := SocksStatus.stHaveAddr } rfl rfl rfl

/-- Reading back the side just stored returns the stored bufferevent. -/
theorem Conn.getBev_setBev (c : Conn) (s : Side) (b : BEV) :
    (c.setBev s b).getBev s = some b := by
  cases s <;> rfl

/-- Whenever error_or_eof enters the flushing state, the flush side ends up
carrying close_conn_on_flush as its write-complete callback and
output_event as its event callback, regardless of which stream it is. -/
theorem error_or_eof_flush_cbs (c : Conn) (eS fS : Side) (c2 : Conn)
    (h : error_or_eof c eS fS = some (Res.cont c2)) :
    ∃ bf, c2.getBev fS = some bf
      ∧ bf.eventCb = EventCb.outputEvent
      ∧ bf.writeCb = WriteCb.closeConnOnFlush := by
  unfold error_or_eof at h
  split_ifs at h
  · simp at h
  · simp at h
  · rcases hf : c.getBev fS with _ | bf0
    · rw [hf] at h; cases h
    · rw [hf] at h
      dsimp only at h
      split_ifs at h
      · simp at h
      · rcases m1 : ({ c with flushing := true } : Conn).modifyBev eS
            (fun b => { b with readEnabled := false, writeEnabled := false }) with _ | d1
        · rw [m1] at h; cases h
        · rw [m1] at h
          dsimp only at h
          rcases m2 : d1.modifyBev fS (fun b => { b with readEnabled := false }) with _ | d2
          · rw [m2] at h; cases h
          · rw [m2] at h
            dsimp only at h
            unfold Conn.modifyBev at h
            rcases h3 : d2.getBev fS with _ | x
            · rw [h3] at h; cases h
            · rw [h3] at h
              simp only [Option.map_some'] at h
              rw [Conn.getBev_setBev] at h
              simp only [Option.map_some'] at h
              injection h with h
              injection h with h
              subst h
              rw [Conn.getBev_setBev]
              exact ⟨_, rfl, rfl, rfl⟩

/-- Claim C9: error_or_eof installs output_event as the event callback on
the flush side regardless of which stream that is; hence after a connection
starts flushing toward its input stream, any subsequent event dispatched on
that input stream lands in output_event, whose assertion that the event
fired on conn.output fails, aborting the process. -/
theorem claim9_flush_toward_input_abort (O : Oracle) (c c2 : Conn) (what : EvWhat)
    (h : error_or_eof c Side.out Side.inp = some (Res.cont c2)) :
    c2.input.eventCb = EventCb.outputEvent
    ∧ dispatch_event O Side.inp what c2 = some Res.abort
    ∧ (∀ (c3 c4 : Conn) (eS fS : Side),
        error_or_eof c3 eS fS = some (Res.cont c4) →
        ∃ bf, c4.getBev fS = some bf ∧ bf.eventCb = EventCb.outputEvent) := by
  obtain ⟨bf, hg, he, hw⟩ := error_or_eof_flush_cbs c Side.out Side.inp c2 h
  have hin : c2.input.eventCb = EventCb.outputEvent := by
    simp only [Conn.getBev] at hg
    injection hg with hg
    rw [hg]
    exact he
  refine ⟨hin, ?_, fun c3 c4 eS fS h34 =>
    (error_or_eof_flush_cbs c3 eS fS c4 h34).imp (fun bf2 hbf => ⟨hbf.1, hbf.2.1⟩)⟩
  simp [dispatch_event, Conn.getBev, hin, output_event]

/-- Witness for claim C9: the concrete open connection flushing toward its
input; the resulting input event callback is output_event and an event on
the input aborts. -/
theorem claim9_flush_toward_input_abort_witness :
    ({ mode := Mode.simpleClient,
       input := { readBuf := [3], writeBuf := [1], readEnabled := false,
                  writeEnabled := true, readCb := ReadCb.none,
                  writeCb := WriteCb.closeConnOnFlush,
                  eventCb := EventCb.outputEvent },
       output := some { readBuf := [4], writeBuf := [2], readEnabled := false,
                        writeEnabled := false, readCb := ReadCb.downstreamRead,
                        writeCb := WriteCb.none, eventCb := EventCb.outputEvent },
       socksState := none, isOpen := true,
       flushing := true } : Conn).input.eventCb = EventCb.outputEvent
    ∧ dispatch_event oK Side.inp evError
        { mode := Mode.simpleClient,
          input := { readBuf := [3], writeBuf := [1], readEnabled := false,
                     writeEnabled := true, readCb := ReadCb.none,
                     writeCb := WriteCb.closeConnOnFlush,
                     eventCb := EventCb.outputEvent },
          output := some { readBuf := [4], writeBuf := [2], readEnabled := false,
                           writeEnabled := false, readCb := ReadCb.downstreamRead,
                           writeCb := WriteCb.none, eventCb := EventCb.outputEvent },
          socksState := none, isOpen := true, flushing := true } = some Res.abort := by
  have t := claim9_flush_toward_input_abort oK connFwd
    { mode := Mode.simpleClient,
      input := { readBuf := [3], writeBuf := [1], readEnabled := false,
                 writeEnabled := true, readCb := ReadCb.none,
                 writeCb := WriteCb.closeConnOnFlush,
                 eventCb := EventCb.outputEvent },
      output := some { readBuf := [4], writeBuf := [2], readEnabled := false,
                       writeEnabled := false, readCb := ReadCb.downstreamRead,
                       writeCb := WriteCb.none, eventCb := EventCb.outputEvent },
      socksState := none, isOpen := true, flushing := true }
    evError (by decide)
  exact ⟨t.1, t.2.1⟩

/-- Claim C10: in the SendPending branch of downstream_read the return value
of the follow-up proto_send call is discarded, so the connection survives
for every oracle, including one whose proto_send fails; by contrast a
negative proto_send return in upstream_read closes the connection, and a Bad
proto_recv result in downstream_read closes it. -/
theorem claim10_send_pending_result_discarded :
    (∀ (O : Oracle) (bev : Side) (c : Conn) (bS bO : BEV),
      c.getBev bev = some bS →
      c.getBev (if bev = Side.inp then Side.out else Side.inp) = some bO →
      (O.protoRecv bS.readBuf bO.writeBuf).1 = RecvRet.recvSendPending →
      ∃ c2, downstream_read O bev c = some (Res.cont c2))
    ∧ (∀ (O : Oracle) (bev : Side) (c : Conn) (bS bO : BEV),
      c.getBev bev = some bS →
      c.getBev (if bev = Side.inp then Side.out else Side.inp) = some bO →
      (O.protoSend bS.readBuf bO.writeBuf).1 < 0 →
      upstream_read O bev c = some Res.closed)
    ∧ (∀ (O : Oracle) (bev : Side) (c : Conn) (bS bO : BEV),
      c.getBev bev = some bS →
      c.getBev (if bev = Side.inp then Side.out else Side.inp) = some bO →
      (O.protoRecv bS.readBuf bO.writeBuf).1 = RecvRet.recvBad →
      downstream_read O bev c = some Res.closed) := by
  refine ⟨?_, ?_, ?_⟩
  · intro O bev c bS bO h1 h2 hr
    cases bev
    · have h1i : c.input = bS := by simpa [Conn.getBev] using h1
      have h2o : c.output = some bO := by simpa [Conn.getBev] using h2
      subst h1i
      simp [downstream_read, Conn.getBev, Conn.setBev, h2o, hr]
    · have h1o : c.output = some bS := by simpa [Conn.getBev] using h1
      have h2i : c.input = bO := by simpa [Conn.getBev] using h2
      subst h2i
      simp [downstream_read, Conn.getBev, Conn.setBev, h1o, hr]
  · intro O bev c bS bO h1 h2 hsnd
    cases bev
    · have h1i : c.input = bS := by simpa [Conn.getBev] using h1
      have h2o : c.output = some bO := by simpa [Conn.getBev] using h2
      subst h1i
      simp [upstream_read, Conn.getBev, Conn.setBev, h2o, hsnd]
    · have h1o : c.output = some bS := by simpa [Conn.getBev] using h1
      have h2i : c.input = bO := by simpa [Conn.getBev] using h2
      subst h2i
      simp [upstream_read, Conn.getBev, Conn.setBev, h1o, hsnd]
  · intro O bev c bS bO h1 h2 hr
    cases bev
    · have h1i : c.input = bS := by simpa [Conn.getBev] using h1
      have h2o : c.output = some bO := by simpa [Conn.getBev] using h2
      subst h1i
      simp [downstream_read, Conn.getBev, Conn.setBev, h2o, hr]
    · have h1o : c.output = some bS := by simpa [Conn.getBev] using h1
      have h2i : c.input = bO := by simpa [Conn.getBev] using h2
      subst h2i
      simp [downstream_read, Conn.getBev, Conn.setBev, h1o, hr]

/-- Witness for claim C10 at the concrete oracle whose proto_recv asks for a
follow-up send and whose proto_send fails: the SendPending path still leaves
the connection alive, while the same failing proto_send in upstream_read
closes it. -/
theorem claim10_send_pending_result_discarded_witness :
    (∃ c2, downstream_read oSP Side.out connFwd = some (Res.cont c2))
    ∧ upstream_read oSP Side.out connFwd = some Res.closed :=
  ⟨claim10_send_pending_result_discarded.1 oSP Side.out connFwd
    { readBuf := [4], writeBuf := [2], readEnabled := true, writeEnabled := true,
      readCb := ReadCb.downstreamRead, writeCb := WriteCb.none,
      eventCb := EventCb.outputEvent }
    connFwd.input rfl rfl rfl,
   claim10_send_pending_result_discarded.2.1 oSP Side.out connFwd
    { readBuf := [4], writeBuf := [2], readEnabled := true, writeEnabled := true,
      readCb := ReadCb.downstreamRead, writeCb := WriteCb.none,
      eventCb := EventCb.outputEvent }
    connFwd.input rfl rfl (by decide)⟩

end StegoNet
